import Mathlib

/-!
Verification of the WebGPU Game-of-Life repository (`src/index.js`,
`src/shaders/frag.wgsl`) against its natural-language specification.

Host-side state and command recording from `index.js` are embedded as pure
Lean data; the WGSL compute shader (`compute.wgsl`) and vertex shader
(`vert.wgsl`) are not part of the repository snapshot, so their behaviour is
modelled from the specification where a claim needs it (marked in the
doc comment of the corresponding definition).
-/

namespace WebgpuStudy

/-- `const GRID_SIZE = 256;` in `index.js`. -/
def GRID_SIZE : Nat := 256

/-- `const UPDATE_INTERVAL = 33;` in `index.js` (milliseconds per tick). -/
def UPDATE_INTERVAL : Nat := 33

/-- `const WORKGROUP_SIZE = 8;` in `index.js`. -/
def WORKGROUP_SIZE : Nat := 8

/-- The static vertex array of `index.js` (two triangles forming one quad);
`0.8` is embedded as the rational `4/5`. -/
def vertices : List ℚ :=
  [-4/5, -4/5, 4/5, -4/5, 4/5, 4/5,
   -4/5, -4/5, 4/5, 4/5, -4/5, 4/5]

/-- The GPU buffers created by `index.js`.  `cellState 0` is "Cell State A",
`cellState 1` is "Cell State B". -/
inductive Buf
  | vertexBuffer
  | uniformBuffer
  | cellState (i : Nat)
  deriving DecidableEq, Repr

/-- A bind group: the resource bound at each of the three binding slots
(0 = grid uniform, 1 = read-only cell state, 2 = writable cell state). -/
structure BindGroup where
  binding0 : Buf
  binding1 : Buf
  binding2 : Buf
  deriving DecidableEq, Repr

/-- The two bind groups of `index.js`: group A binds state buffer 0 at slot 1
and state buffer 1 at slot 2; group B binds them the other way round. -/
def bindGroups : List BindGroup :=
  [⟨Buf.uniformBuffer, Buf.cellState 0, Buf.cellState 1⟩,
   ⟨Buf.uniformBuffer, Buf.cellState 1, Buf.cellState 0⟩]

/-- Default bind group used by the safe list indexing below (never reached,
since indices are taken mod 2). -/
def bindGroupDefault : BindGroup :=
  ⟨Buf.uniformBuffer, Buf.cellState 0, Buf.cellState 1⟩

/-- `bindGroups[k]` of `index.js`. -/
def bindGroupAt (k : Nat) : BindGroup :=
  bindGroups.getD k bindGroupDefault

/-- Shader stages of WebGPU relevant to this program. -/
inductive Stage
  | vertex
  | fragment
  | compute
  deriving DecidableEq, Repr

/-- WebGPU buffer binding types used by the layout (`{}` defaults to
`uniform`). -/
inductive BufferBindingType
  | uniform
  | readOnlyStorage
  | storage
  deriving DecidableEq, Repr

/-- One entry of the bind group layout. -/
structure LayoutEntry where
  binding : Nat
  visibility : List Stage
  btype : BufferBindingType
  deriving DecidableEq, Repr

/-- The `bindGroupLayout` of `index.js`: slot 0 uniform (vertex+compute),
slot 1 read-only storage (vertex+compute), slot 2 writable storage
(compute only). -/
def bindGroupLayout : List LayoutEntry :=
  [⟨0, [Stage.vertex, Stage.compute], BufferBindingType.uniform⟩,
   ⟨1, [Stage.vertex, Stage.compute], BufferBindingType.readOnlyStorage⟩,
   ⟨2, [Stage.compute], BufferBindingType.storage⟩]

/-- The two pipelines of `index.js`. -/
inductive Pipeline
  | cell
  | simulation
  deriving DecidableEq, Repr

/-- Commands recorded on the command encoder during one `updateGrid` call. -/
inductive Cmd
  | beginComputePass
  | setComputePipeline (p : Pipeline)
  | setComputeBindGroup (group : BindGroup)
  | dispatchWorkgroups (x y : Nat)
  | endComputePass
  | beginRenderPass
  | setRenderPipeline (p : Pipeline)
  | setRenderBindGroup (group : BindGroup)
  | setVertexBuffer (b : Buf)
  | draw (vertexCount instanceCount : Nat)
  | endRenderPass
  deriving DecidableEq, Repr

/-- `Math.ceil(GRID_SIZE / WORKGROUP_SIZE)` of `updateGrid`. -/
def workgroupCount : Nat := (GRID_SIZE + WORKGROUP_SIZE - 1) / WORKGROUP_SIZE

/-- The compute-pass commands recorded by `updateGrid` when entered with
generation counter `step`. -/
def computePassCmds (step : Nat) : List Cmd :=
  [Cmd.beginComputePass,
   Cmd.setComputePipeline Pipeline.simulation,
   Cmd.setComputeBindGroup (bindGroupAt (step % 2)),
   Cmd.dispatchWorkgroups workgroupCount workgroupCount,
   Cmd.endComputePass]

/-- The render-pass commands recorded by `updateGrid` after `step++`, i.e.
with the incremented counter `step1`. -/
def renderPassCmds (step1 : Nat) : List Cmd :=
  [Cmd.beginRenderPass,
   Cmd.setRenderPipeline Pipeline.cell,
   Cmd.setRenderBindGroup (bindGroupAt (step1 % 2)),
   Cmd.setVertexBuffer Buf.vertexBuffer,
   Cmd.draw (vertices.length / 2) (GRID_SIZE * GRID_SIZE),
   Cmd.endRenderPass]

/-- One `updateGrid` tick from `index.js`: records a compute pass with
`bindGroups[step % 2]`, increments `step`, records a render pass with
`bindGroups[step % 2]` (the incremented step), and submits everything as a
single command-buffer batch.  Returns the new counter value and the list of
submitted batches. -/
def updateGrid (step : Nat) : Nat × List (List Cmd) :=
  let step1 := step + 1
  (step1, [computePassCmds step ++ renderPassCmds step1])

/-- The generation counter after `n` ticks of the scheduler, starting from
`let step = 0`. -/
def runTicks : Nat → Nat
  | 0 => 0
  | n + 1 => (updateGrid (runTicks n)).1

/-- The buffer the compute pass of tick `n` reads (binding slot 1 of the bind
group it sets). -/
def tickSource (n : Nat) : Buf :=
  (bindGroupAt (runTicks n % 2)).binding1

/-- The buffer the compute pass of tick `n` writes (binding slot 2 of the bind
group it sets). -/
def tickDestination (n : Nat) : Buf :=
  (bindGroupAt (runTicks n % 2)).binding2

/-- The (source, destination) buffer pair of tick `n`. -/
def tickPair (n : Nat) : Buf × Buf :=
  (tickSource n, tickDestination n)

/-- The buffer the render pass of tick `n` reads (binding slot 1 of the bind
group set in the render pass). -/
def tickRenderSource (n : Nat) : Buf :=
  (bindGroupAt ((runTicks n + 1) % 2)).binding1

lemma runTicks_eq (n : Nat) : runTicks n = n := by
  induction n with
  | zero => rfl
  | succ k ih => simp [runTicks, updateGrid, ih]

lemma bindGroupAt_mod (n : Nat) :
    bindGroupAt (n % 2) =
      if n % 2 = 0 then ⟨Buf.uniformBuffer, Buf.cellState 0, Buf.cellState 1⟩
      else ⟨Buf.uniformBuffer, Buf.cellState 1, Buf.cellState 0⟩ := by
  rcases Nat.mod_two_eq_zero_or_one n with h | h <;>
    simp [bindGroupAt, bindGroups, h]

/-- Modelled from the spec: the compute shader `compute.wgsl` is not part of
the repository snapshot (only its host-side setup is), so neighbor lookup is
taken from the spec's words: "each neighbor coordinate wraps modulo grid
width/height (toroidal topology)". -/
def wrapCoord (w : Nat) (x : Nat) (d : Int) : Nat :=
  (((x : Int) + d) % (w : Int)).toNat

/-- The eight neighbor offsets of a cell. -/
def neighborOffsets : List (Int × Int) :=
  [(-1, -1), (0, -1), (1, -1), (-1, 0), (1, 0), (-1, 1), (0, 1), (1, 1)]

/-- Modelled from the spec: "count the number of live cells among its 8
neighbors", with toroidally-wrapped coordinates, reading only the source
grid `g`. -/
def neighborCount (W H : Nat) (g : Nat → Nat → Bool) (x y : Nat) : Nat :=
  neighborOffsets.countP (fun d => g (wrapCoord W x d.1) (wrapCoord H y d.2))

/-- Modelled from the spec: "a live cell survives iff it has exactly 2 or 3
live neighbors; a dead cell becomes live iff it has exactly 3 live neighbors;
all other combinations yield dead". -/
def lifeRule (alive : Bool) (n : Nat) : Bool :=
  if alive then n == 2 || n == 3 else n == 3

/-- Modelled from the spec: one SimulationStep — the next generation as a pure
function of the source grid `g` (`compute.wgsl` is not in the snapshot).
Being a pure function of `g`, it structurally reads nothing written to the
destination during the step and leaves the source unmodified. -/
def simulationStep (W H : Nat) (g : Nat → Nat → Bool) : Nat → Nat → Bool :=
  fun x y => lifeRule (g x y) (neighborCount W H g x y)

/-- Two grids agree on every cell of the W×H domain. -/
def gridEq (W H : Nat) (g g' : Nat → Nat → Bool) : Prop :=
  ∀ x, x < W → ∀ y, y < H → g x y = g' x y

instance gridEqDecidable (W H : Nat) (g g' : Nat → Nat → Bool)
    [DecidablePred fun x => ∀ y, y < H → g x y = g' x y] :
    Decidable (gridEq W H g g') :=
  Nat.decidableBallLT W fun x _ => ∀ y, y < H → g x y = g' x y

/-- A horizontal blinker: live cells at `(x0-1, y0)`, `(x0, y0)`,
`(x0+1, y0)`, dead everywhere else. -/
def blinkerH (x0 y0 : Nat) : Nat → Nat → Bool :=
  fun x y => decide (y = y0 ∧ (x + 1 = x0 ∨ x = x0 ∨ x = x0 + 1))

/-- A vertical blinker: live cells at `(x0, y0-1)`, `(x0, y0)`,
`(x0, y0+1)`, dead everywhere else. -/
def blinkerV (x0 y0 : Nat) : Nat → Nat → Bool :=
  fun x y => decide (x = x0 ∧ (y + 1 = y0 ∨ y = y0 ∨ y = y0 + 1))

/-- A 2×2 block of live cells with upper-left corner `(x0, y0)`, dead
everywhere else. -/
def blockPattern (x0 y0 : Nat) : Nat → Nat → Bool :=
  fun x y => decide ((x = x0 ∨ x = x0 + 1) ∧ (y = y0 ∨ y = y0 + 1))

lemma neg_one_emod_eq (w : Nat) (hw : 0 < w) :
    (-1 : Int) % (w : Int) = (w : Int) - 1 := by
  have h1 : ((-1 : Int) + (w : Int) * 1) % (w : Int) = (-1 : Int) % (w : Int) :=
    Int.add_mul_emod_self_left (-1) (w : Int) 1
  have h2 : ((-1 : Int) + (w : Int) * 1) = (w : Int) - 1 := by ring
  have h3 : ((w : Int) - 1) % (w : Int) = (w : Int) - 1 :=
    Int.emod_eq_of_lt (by omega) (by omega)
  rw [h2, h3] at h1
  exact h1.symm

lemma wrapCoord_neg_one (w x : Nat) (h : x < w) :
    wrapCoord w x (-1) = if x = 0 then w - 1 else x - 1 := by
  unfold wrapCoord
  rcases Nat.eq_zero_or_pos x with hx | hx
  · subst hx
    rw [if_pos rfl]
    have h0 : ((0 : Nat) : Int) + -1 = -1 := by norm_num
    rw [h0, neg_one_emod_eq w (by omega)]
    omega
  · have h1 : ((x : Int) + -1) % (w : Int) = (x : Int) - 1 := by
      have e : (x : Int) + -1 = (x : Int) - 1 := by ring
      rw [e]
      exact Int.emod_eq_of_lt (by omega) (by omega)
    rw [h1, if_neg (by omega)]
    omega

lemma wrapCoord_zero (w x : Nat) (h : x < w) : wrapCoord w x 0 = x := by
  unfold wrapCoord
  have h1 : ((x : Int) + 0) % (w : Int) = (x : Int) + 0 :=
    Int.emod_eq_of_lt (by omega) (by omega)
  rw [h1]
  omega

lemma wrapCoord_one (w x : Nat) (h : x < w) :
    wrapCoord w x 1 = if x + 1 = w then 0 else x + 1 := by
  unfold wrapCoord
  rcases eq_or_ne (x + 1) w with hx | hx
  · have h1 : (x : Int) + 1 = (w : Int) := by omega
    rw [h1, Int.emod_self]
    simp [hx]
  · have h1 : ((x : Int) + 1) % (w : Int) = (x : Int) + 1 :=
      Int.emod_eq_of_lt (by omega) (by omega)
    rw [h1, if_neg hx]
    omega

lemma simulationStep_eq_true_iff (W H : Nat) (g : Nat → Nat → Bool) (x y : Nat) :
    simulationStep W H g x y = true ↔
      ((g x y = true ∧ (neighborCount W H g x y = 2 ∨ neighborCount W H g x y = 3)) ∨
       (g x y = false ∧ neighborCount W H g x y = 3)) := by
  unfold simulationStep lifeRule
  cases h : g x y <;> simp [h]

lemma wrapLeft_eq (w c a : Nat) (ha : a < w) (h2 : 2 ≤ c) (h3 : c + 3 ≤ w) :
    ((if a = 0 then w - 1 else a - 1) = c) ↔ a = c + 1 := by
  split_ifs <;> (try simp only [or_false, false_or, and_false, false_and, or_true,
    true_or, and_true, true_and]) <;> omega

lemma wrapRight_eq (w c a : Nat) (ha : a < w) (h2 : 2 ≤ c) (h3 : c + 3 ≤ w) :
    ((if a + 1 = w then 0 else a + 1) = c) ↔ a + 1 = c := by
  split_ifs <;> (try simp only [or_false, false_or, and_false, false_and, or_true,
    true_or, and_true, true_and]) <;> omega

lemma wrapLeft_hit3 (w c a : Nat) (ha : a < w) (h2 : 2 ≤ c) (h3 : c + 3 ≤ w) :
    ((if a = 0 then w - 1 else a - 1) + 1 = c ∨ (if a = 0 then w - 1 else a - 1) = c ∨
      (if a = 0 then w - 1 else a - 1) = c + 1) ↔ (a = c ∨ a = c + 1 ∨ a = c + 2) := by
  split_ifs <;> (try simp only [or_false, false_or, and_false, false_and, or_true,
    true_or, and_true, true_and]) <;> omega

lemma wrapRight_hit3 (w c a : Nat) (ha : a < w) (h2 : 2 ≤ c) (h3 : c + 3 ≤ w) :
    ((if a + 1 = w then 0 else a + 1) + 1 = c ∨ (if a + 1 = w then 0 else a + 1) = c ∨
      (if a + 1 = w then 0 else a + 1) = c + 1) ↔ (a + 2 = c ∨ a + 1 = c ∨ a = c) := by
  split_ifs <;> (try simp only [or_false, false_or, and_false, false_and, or_true,
    true_or, and_true, true_and]) <;> omega

lemma wrapLeft_hit2 (w c a : Nat) (ha : a < w) (h2 : 1 ≤ c) (h3 : c + 3 ≤ w) :
    ((if a = 0 then w - 1 else a - 1) = c ∨ (if a = 0 then w - 1 else a - 1) = c + 1) ↔
      (a = c + 1 ∨ a = c + 2) := by
  split_ifs <;> (try simp only [or_false, false_or, and_false, false_and, or_true,
    true_or, and_true, true_and]) <;> omega

lemma wrapRight_hit2 (w c a : Nat) (ha : a < w) (h2 : 1 ≤ c) (h3 : c + 3 ≤ w) :
    ((if a + 1 = w then 0 else a + 1) = c ∨ (if a + 1 = w then 0 else a + 1) = c + 1) ↔
      (a + 1 = c ∨ a = c) := by
  split_ifs <;> (try simp only [or_false, false_or, and_false, false_and, or_true,
    true_or, and_true, true_and]) <;> omega

set_option maxHeartbeats 1600000 in
lemma step_blinkerH (W H x0 y0 : Nat) (hx0 : 2 ≤ x0) (hxW : x0 + 3 ≤ W)
    (hy0 : 2 ≤ y0) (hyH : y0 + 3 ≤ H) :
    gridEq W H (simulationStep W H (blinkerH x0 y0)) (blinkerV x0 y0) := by
  intro x hx y hy
  rw [Bool.eq_iff_iff, simulationStep_eq_true_iff]
  simp only [neighborCount, neighborOffsets, List.countP_cons, List.countP_nil,
    blinkerH, blinkerV, wrapCoord_neg_one W x hx, wrapCoord_neg_one H y hy,
    wrapCoord_zero W x hx, wrapCoord_zero H y hy,
    wrapCoord_one W x hx, wrapCoord_one H y hy,
    decide_eq_true_eq, decide_eq_false_iff_not,
    wrapLeft_eq H y0 y hy hy0 hyH, wrapRight_eq H y0 y hy hy0 hyH,
    wrapLeft_hit3 W x0 x hx hx0 hxW, wrapRight_hit3 W x0 x hx hx0 hxW]
  split_ifs <;> (try simp only [or_false, false_or, and_false, false_and, or_true,
    true_or, and_true, true_and]) <;> omega

set_option maxHeartbeats 1600000 in
lemma step_blinkerV (W H x0 y0 : Nat) (hx0 : 2 ≤ x0) (hxW : x0 + 3 ≤ W)
    (hy0 : 2 ≤ y0) (hyH : y0 + 3 ≤ H) :
    gridEq W H (simulationStep W H (blinkerV x0 y0)) (blinkerH x0 y0) := by
  intro x hx y hy
  rw [Bool.eq_iff_iff, simulationStep_eq_true_iff]
  simp only [neighborCount, neighborOffsets, List.countP_cons, List.countP_nil,
    blinkerH, blinkerV, wrapCoord_neg_one W x hx, wrapCoord_neg_one H y hy,
    wrapCoord_zero W x hx, wrapCoord_zero H y hy,
    wrapCoord_one W x hx, wrapCoord_one H y hy,
    decide_eq_true_eq, decide_eq_false_iff_not,
    wrapLeft_eq W x0 x hx hx0 hxW, wrapRight_eq W x0 x hx hx0 hxW,
    wrapLeft_hit3 H y0 y hy hy0 hyH, wrapRight_hit3 H y0 y hy hy0 hyH]
  split_ifs <;> (try simp only [or_false, false_or, and_false, false_and, or_true,
    true_or, and_true, true_and]) <;> omega

set_option maxHeartbeats 1600000 in
lemma step_block (W H x0 y0 : Nat) (hx0 : 1 ≤ x0) (hxW : x0 + 3 ≤ W)
    (hy0 : 1 ≤ y0) (hyH : y0 + 3 ≤ H) :
    gridEq W H (simulationStep W H (blockPattern x0 y0)) (blockPattern x0 y0) := by
  intro x hx y hy
  rw [Bool.eq_iff_iff, simulationStep_eq_true_iff]
  simp only [neighborCount, neighborOffsets, List.countP_cons, List.countP_nil,
    blockPattern, wrapCoord_neg_one W x hx, wrapCoord_neg_one H y hy,
    wrapCoord_zero W x hx, wrapCoord_zero H y hy,
    wrapCoord_one W x hx, wrapCoord_one H y hy,
    decide_eq_true_eq, decide_eq_false_iff_not,
    wrapLeft_hit2 W x0 x hx hx0 hxW, wrapRight_hit2 W x0 x hx hx0 hxW,
    wrapLeft_hit2 H y0 y hy hy0 hyH, wrapRight_hit2 H y0 y hy hy0 hyH]
  split_ifs <;> (try simp only [or_false, false_or, and_false, false_and, or_true,
    true_or, and_true, true_and]) <;> omega

lemma gridEq_trans {W H : Nat} {g1 g2 g3 : Nat → Nat → Bool}
    (h12 : gridEq W H g1 g2) (h23 : gridEq W H g2 g3) : gridEq W H g1 g3 := by
  intro x hx y hy
  rw [h12 x hx y hy, h23 x hx y hy]

lemma wrapCoord_lt (w x : Nat) (hw : 0 < w) (d : Int) : wrapCoord w x d < w := by
  unfold wrapCoord
  have h1 : (0 : Int) ≤ ((x : Int) + d) % (w : Int) :=
    Int.emod_nonneg _ (by omega)
  have h2 : ((x : Int) + d) % (w : Int) < (w : Int) :=
    Int.emod_lt_of_pos _ (by omega)
  omega

lemma neighborCount_congr (W H : Nat) (hW : 0 < W) (hH : 0 < H)
    (g g' : Nat → Nat → Bool) (h : gridEq W H g g') (x y : Nat) :
    neighborCount W H g x y = neighborCount W H g' x y := by
  unfold neighborCount
  apply List.countP_congr
  intro d _
  rw [h _ (wrapCoord_lt W x hW d.1) _ (wrapCoord_lt H y hH d.2)]

lemma simulationStep_congr (W H : Nat) (hW : 0 < W) (hH : 0 < H)
    (g g' : Nat → Nat → Bool) (h : gridEq W H g g') :
    gridEq W H (simulationStep W H g) (simulationStep W H g') := by
  intro x hx y hy
  unfold simulationStep
  rw [h x hx y hy, neighborCount_congr W H hW hH g g' h x y]

/-- Commands that belong to the compute pass. -/
def isComputeCmd : Cmd → Bool
  | Cmd.beginComputePass => true
  | Cmd.setComputePipeline _ => true
  | Cmd.setComputeBindGroup _ => true
  | Cmd.dispatchWorkgroups _ _ => true
  | Cmd.endComputePass => true
  | _ => false

/-- Commands that belong to the render pass. -/
def isRenderCmd : Cmd → Bool
  | Cmd.beginRenderPass => true
  | Cmd.setRenderPipeline _ => true
  | Cmd.setRenderBindGroup _ => true
  | Cmd.setVertexBuffer _ => true
  | Cmd.draw _ _ => true
  | Cmd.endRenderPass => true
  | _ => false

/-- The side effects `index.js` performs after the capability checks pass. -/
inductive InitEffect
  | configureContext
  | createVertexBuffer
  | createBindGroupLayout
  | createPipelineLayout
  | createRenderPipeline
  | createComputePipeline
  | createUniformBuffer
  | createCellStateBuffers
  | createBindGroups
  | scheduleInterval (ms : Nat)
  deriving DecidableEq, Repr

/-- The top-level initialization of `index.js`: `if (!navigator.gpu) throw new
Error(...)`, then `if (!adapter) throw new Error(...)`, then context
configuration, pipeline construction and `setInterval(updateGrid,
UPDATE_INTERVAL)`.  A throw is an `Except.error` carrying the message; nothing
after a throw executes. -/
def initProgram (gpuAvailable adapterAvailable : Bool) :
    Except String (List InitEffect) :=
  if !gpuAvailable then Except.error "WebGPU not supported on this browser."
  else if !adapterAvailable then Except.error "No appropriate GPUAdapter found."
  else Except.ok
    [InitEffect.configureContext, InitEffect.createVertexBuffer,
     InitEffect.createBindGroupLayout, InitEffect.createPipelineLayout,
     InitEffect.createRenderPipeline, InitEffect.createComputePipeline,
     InitEffect.createUniformBuffer, InitEffect.createCellStateBuffers,
     InitEffect.createBindGroups, InitEffect.scheduleInterval UPDATE_INTERVAL]

/-- Whether initialization proceeded to the effect phase (pipeline
construction and tick scheduling). -/
def initProceeds : Except String (List InitEffect) → Bool
  | Except.ok _ => true
  | Except.error _ => false

/-- The `cellStateArray` seeding loop of `index.js`:
`cellStateArray[i] = Math.random() > 0.6 ? 1 : 0` for every index of the
`GRID_SIZE * GRID_SIZE` array.  The `i`-th `Math.random()` draw is modelled
as the rational `rand i`. -/
def cellStateArraySeeded (rand : Nat → ℚ) : List Nat :=
  (List.range (GRID_SIZE * GRID_SIZE)).map (fun i => if rand i > 3/5 then 1 else 0)

/-- The buffers targeted by host-side `device.queue.writeBuffer` calls during
initialization, in program order: the vertex buffer, the grid uniform, and
cell-state buffer A (`cellStateStorage[0]`).  `updateGrid` performs no host
write. -/
def hostWriteTargets : List Buf :=
  [Buf.vertexBuffer, Buf.uniformBuffer, Buf.cellState 0]

/-- `struct VertexOutput` of `frag.wgsl`: the clip-space position and the
interpolated normalized cell coordinate. -/
structure VertexOutput where
  position : ℚ × ℚ × ℚ × ℚ
  cell : ℚ × ℚ

/-- `fragmentMain` of `frag.wgsl`:
`return vec4f(input.cell, 1.0 - input.cell.x, 1);`. -/
def fragmentMain (input : VertexOutput) : ℚ × ℚ × ℚ × ℚ :=
  (input.cell.1, input.cell.2, 1 - input.cell.1, 1)

/-- Modelled from the spec: the vertex shader `vert.wgsl` is not in the
repository snapshot; per the spec, liveness "determines only whether the
instance survives to be drawn", "typically by scaling dead cells to zero
size".  The vertex stage scales the quad position by the cell's state value
and passes the normalized cell coordinate through unchanged. -/
def vertexMain (state : Nat) (pos : ℚ × ℚ) (cell : ℚ × ℚ) : VertexOutput :=
  { position := (pos.1 * state, pos.2 * state, 0, 1), cell := cell }

/-- The bind-group-layout entries through which a render-pipeline stage could
write: entries visible to the vertex or fragment stage whose buffer type is
writable storage. -/
def renderStageWritableEntries : List LayoutEntry :=
  bindGroupLayout.filter (fun e =>
    (e.visibility.contains Stage.vertex || e.visibility.contains Stage.fragment) &&
    e.btype == BufferBindingType.storage)

/-- The `(vertexCount, instanceCount)` arguments of the draw calls submitted
by tick `n`. -/
def drawCalls (n : Nat) : List (Nat × Nat) :=
  ((updateGrid n).2.join).filterMap (fun c =>
    match c with
    | Cmd.draw v i => some (v, i)
    | _ => none)

lemma tickPair_eq (n : Nat) :
    tickPair n = (Buf.cellState (n % 2), Buf.cellState ((n + 1) % 2)) := by
  rcases Nat.mod_two_eq_zero_or_one n with h | h <;>
    simp [tickPair, tickSource, tickDestination, runTicks_eq, bindGroupAt_mod, h,
      Nat.add_mod, bindGroupAt, bindGroups]

/-- Claim C1: for every tick `n` of the scheduler (generation counter starting
at 0, incremented exactly once per tick), the compute pass reads cell-state
buffer `n % 2` as source and writes buffer `(n+1) % 2` as destination, so the
(source, destination) pairs alternate strictly between (A,B) and (B,A) with no
pair repeated twice in a row. -/
theorem buffer_role_alternation (n : Nat) :
    runTicks n = n ∧
    tickPair n = (Buf.cellState (n % 2), Buf.cellState ((n + 1) % 2)) ∧
    tickPair n ≠ tickPair (n + 1) ∧
    (tickPair n = (Buf.cellState 0, Buf.cellState 1) ∨
     tickPair n = (Buf.cellState 1, Buf.cellState 0)) := by
  have h1 := tickPair_eq n
  have h2 := tickPair_eq (n + 1)
  refine ⟨runTicks_eq n, h1, ?_, ?_⟩
  · intro heq
    rw [h1, h2] at heq
    have hfst : Buf.cellState (n % 2) = Buf.cellState ((n + 1) % 2) :=
      congrArg Prod.fst heq
    have : n % 2 = (n + 1) % 2 := by injection hfst
    omega
  · rcases Nat.mod_two_eq_zero_or_one n with h | h
    · left
      rw [h1, h]
      have : (n + 1) % 2 = 1 := by omega
      rw [this]
    · right
      rw [h1, h]
      have : (n + 1) % 2 = 0 := by omega
      rw [this]

/-- Claim C2: every tick encodes the compute pass and the render pass into one
command encoder submitted as a single batch, compute strictly before render,
and the render pass reads exactly the buffer the compute pass of the same tick
wrote as destination (`buffer[(step_before_increment + 1) % 2]`). -/
theorem compute_then_render_single_submit (n : Nat) :
    (updateGrid n).2 = [computePassCmds n ++ renderPassCmds (n + 1)] ∧
    (updateGrid n).2.length = 1 ∧
    (computePassCmds n).all isComputeCmd = true ∧
    (renderPassCmds (n + 1)).all isRenderCmd = true ∧
    Cmd.setRenderBindGroup (bindGroupAt ((n + 1) % 2)) ∈ renderPassCmds (n + 1) ∧
    tickRenderSource n = tickDestination n ∧
    tickRenderSource n = Buf.cellState ((n + 1) % 2) := by
  refine ⟨rfl, rfl, rfl, rfl, ?_, ?_, ?_⟩
  · simp [renderPassCmds]
  · unfold tickRenderSource tickDestination
    rw [runTicks_eq]
    rcases Nat.mod_two_eq_zero_or_one n with h | h
    · have h1 : (n + 1) % 2 = 1 := by omega
      simp [h, h1, bindGroupAt, bindGroups]
    · have h1 : (n + 1) % 2 = 0 := by omega
      simp [h, h1, bindGroupAt, bindGroups]
  · unfold tickRenderSource
    rw [runTicks_eq]
    rcases Nat.mod_two_eq_zero_or_one (n + 1) with h | h <;>
      simp [h, bindGroupAt, bindGroups] <;> omega

/-- Claim C3: one SimulationStep writes into the destination the standard Life
transition of each cell, computed solely from source-buffer values: the new
value of a cell depends only on the cell's own old value and its 8
toroidally-wrapped neighbors' old values (two grids that agree there produce
the same new value), a live cell survives iff it has exactly 2 or 3 live
neighbors, and a dead cell becomes live iff it has exactly 3 live neighbors. -/
theorem simulation_step_local_rule (W H : Nat) (g g' : Nat → Nat → Bool)
    (x y : Nat) (hc : g x y = g' x y)
    (hn : ∀ d ∈ neighborOffsets,
      g (wrapCoord W x d.1) (wrapCoord H y d.2) =
        g' (wrapCoord W x d.1) (wrapCoord H y d.2)) :
    simulationStep W H g x y = simulationStep W H g' x y ∧
    (simulationStep W H g x y = true ↔
      ((g x y = true ∧ (neighborCount W H g x y = 2 ∨ neighborCount W H g x y = 3)) ∨
       (g x y = false ∧ neighborCount W H g x y = 3))) := by
  constructor
  · have hcount : neighborCount W H g x y = neighborCount W H g' x y := by
      unfold neighborCount
      apply List.countP_congr
      intro d hd
      rw [hn d hd]
    unfold simulationStep
    rw [hc, hcount]
  · exact simulationStep_eq_true_iff W H g x y

/-- Witness for claim C3 at a concrete input: a 5×5 blinker grid and a second
grid that additionally has a live cell at (0,0) — outside the neighborhood of
cell (2,2) — give the same new value at (2,2), and the rule characterization
holds there. -/
theorem simulation_step_local_rule_witness :
    simulationStep 5 5 (blinkerH 2 2) 2 2 =
      simulationStep 5 5 (fun x y => blinkerH 2 2 x y || decide (x = 0 ∧ y = 0)) 2 2 ∧
    (simulationStep 5 5 (blinkerH 2 2) 2 2 = true ↔
      ((blinkerH 2 2 2 2 = true ∧
        (neighborCount 5 5 (blinkerH 2 2) 2 2 = 2 ∨
         neighborCount 5 5 (blinkerH 2 2) 2 2 = 3)) ∨
       (blinkerH 2 2 2 2 = false ∧ neighborCount 5 5 (blinkerH 2 2) 2 2 = 3))) :=
  simulation_step_local_rule 5 5 (blinkerH 2 2)
    (fun x y => blinkerH 2 2 x y || decide (x = 0 ∧ y = 0)) 2 2
    (by decide) (by decide)

/-- Claim C4: neighbor coordinates wrap modulo grid width and height (toroidal
topology): for every grid of width W ≥ 2 and height H ≥ 2, the offset (-1,-1)
from cell (0,0) lands on (W-1, H-1), and a live cell there is counted among
the neighbors of (0,0). -/
theorem toroidal_wraparound (W H : Nat) (hW : 2 ≤ W) (hH : 2 ≤ H)
    (g : Nat → Nat → Bool) (hlive : g (W - 1) (H - 1) = true) :
    wrapCoord W 0 (-1) = W - 1 ∧ wrapCoord H 0 (-1) = H - 1 ∧
    0 < neighborCount W H g 0 0 := by
  have h1 : wrapCoord W 0 (-1) = W - 1 := by
    rw [wrapCoord_neg_one W 0 (by omega)]
    simp
  have h2 : wrapCoord H 0 (-1) = H - 1 := by
    rw [wrapCoord_neg_one H 0 (by omega)]
    simp
  refine ⟨h1, h2, ?_⟩
  unfold neighborCount
  rw [List.countP_pos_iff]
  refine ⟨(-1, -1), by simp [neighborOffsets], ?_⟩
  simp only [h1, h2, hlive]

/-- Witness for claim C4 at a concrete input: on a 4×4 grid whose only live
cell is (3,3), cell (0,0) counts a live neighbor. -/
theorem toroidal_wraparound_witness :
    wrapCoord 4 0 (-1) = 3 ∧ wrapCoord 4 0 (-1) = 3 ∧
    0 < neighborCount 4 4 (fun x y => decide (x = 3 ∧ y = 3)) 0 0 :=
  toroidal_wraparound 4 4 (by decide) (by decide)
    (fun x y => decide (x = 3 ∧ y = 3)) (by decide)

/-- Claim C5: a blinker (3 collinear live cells on an otherwise dead grid,
placed away from wrap interactions) returns to its original configuration
after two SimulationSteps, and a 2×2 block of live cells on an otherwise dead
grid maps to itself after one step. -/
theorem blinker_block_patterns (W H x0 y0 : Nat) (hx0 : 2 ≤ x0)
    (hxW : x0 + 3 ≤ W) (hy0 : 2 ≤ y0) (hyH : y0 + 3 ≤ H) :
    gridEq W H (simulationStep W H (simulationStep W H (blinkerH x0 y0)))
      (blinkerH x0 y0) ∧
    gridEq W H (simulationStep W H (blockPattern x0 y0)) (blockPattern x0 y0) := by
  constructor
  · have h1 := step_blinkerH W H x0 y0 hx0 hxW hy0 hyH
    have h2 := step_blinkerV W H x0 y0 hx0 hxW hy0 hyH
    have hc := simulationStep_congr W H (by omega) (by omega) _ _ h1
    exact gridEq_trans hc h2
  · exact step_block W H x0 y0 (by omega) hxW (by omega) hyH

/-- Witness for claim C5 at a concrete input: on a 7×7 grid, the blinker
centered at (3,3) returns after two steps and the block at (3,3) is a still
life. -/
theorem blinker_block_patterns_witness :
    gridEq 7 7 (simulationStep 7 7 (simulationStep 7 7 (blinkerH 3 3)))
      (blinkerH 3 3) ∧
    gridEq 7 7 (simulationStep 7 7 (blockPattern 3 3)) (blockPattern 3 3) :=
  blinker_block_patterns 7 7 3 3 (by decide) (by decide) (by decide) (by decide)

/-- Claim C6: if a required device capability is absent at startup (WebGPU
unavailable, or no adapter returned), initialization raises a fatal error
exactly once — with the corresponding message — and does not proceed to
construct any pipeline or schedule any tick; there is no retry and no
degraded mode. -/
theorem init_capability_failure (gpu adapter : Bool)
    (h : gpu = false ∨ adapter = false) :
    initProgram gpu adapter =
      Except.error (if gpu = false then "WebGPU not supported on this browser."
        else "No appropriate GPUAdapter found.") ∧
    initProceeds (initProgram gpu adapter) = false := by
  rcases h with h | h
  · subst h
    exact ⟨rfl, rfl⟩
  · subst h
    cases gpu <;> exact ⟨rfl, rfl⟩

/-- Witness for claim C6 at a concrete input: with WebGPU unavailable,
initialization errors with the WebGPU message and no effect phase runs. -/
theorem init_capability_failure_witness :
    initProgram false true =
      Except.error "WebGPU not supported on this browser." ∧
    initProceeds (initProgram false true) = false :=
  init_capability_failure false true (Or.inl rfl)

/-- Claim C7: every cell of buffer A is seeded with an independent Bernoulli
draw with live probability 0.4 — cell `i` is 1 iff its uniform draw exceeds
0.6 (= 3/5), else 0 — for all `GRID_SIZE * GRID_SIZE` cells, and the host
never writes buffer B (`cellStateStorage[1]`) before the first simulation
step. -/
theorem seeding_bernoulli (rand : Nat → ℚ) (i : Nat)
    (h : i < GRID_SIZE * GRID_SIZE) :
    ((cellStateArraySeeded rand).getD i 2 = 1 ↔ 3/5 < rand i) ∧
    ((cellStateArraySeeded rand).getD i 2 = 0 ↔ rand i ≤ 3/5) ∧
    (cellStateArraySeeded rand).length = GRID_SIZE * GRID_SIZE ∧
    Buf.cellState 1 ∉ hostWriteTargets := by
  have hval : (cellStateArraySeeded rand).getD i 2 =
      if rand i > 3/5 then 1 else 0 := by
    unfold cellStateArraySeeded
    simp [List.getD_eq_getElem?_getD, List.getElem?_map, List.getElem?_range h]
  refine ⟨?_, ?_, ?_, ?_⟩
  · rw [hval]
    split_ifs with hr
    · simp [hr]
    · simp [hr]
  · rw [hval]
    split_ifs with hr
    · simp
      linarith
    · simp
      linarith
  · unfold cellStateArraySeeded
    simp
  · simp [hostWriteTargets]

/-- Witness for claim C7 at a concrete input: with every draw equal to 7/10,
cell 0 is seeded live; buffer B receives no host write. -/
theorem seeding_bernoulli_witness :
    ((cellStateArraySeeded (fun _ => 7/10)).getD 0 2 = 1 ↔ (3 : ℚ)/5 < 7/10) ∧
    ((cellStateArraySeeded (fun _ => 7/10)).getD 0 2 = 0 ↔ (7 : ℚ)/10 ≤ 3/5) ∧
    (cellStateArraySeeded (fun _ => 7/10)).length = GRID_SIZE * GRID_SIZE ∧
    Buf.cellState 1 ∉ hostWriteTargets :=
  seeding_bernoulli (fun _ => 7/10) 0 (by norm_num [GRID_SIZE])

/-- Claim C8: the fragment output is `vec4(cell.x, cell.y, 1 - cell.x, 1)`, a
deterministic function of the interpolated cell coordinate alone, independent
of the cell's liveness; liveness only gates whether the instance is visible
(the spec-modelled vertex stage scales a dead cell's quad to zero size and
leaves the cell coordinate — hence the color — untouched). -/
theorem fragment_color_from_cell (input : VertexOutput) (s t : Nat)
    (p c : ℚ × ℚ) :
    fragmentMain input = (input.cell.1, input.cell.2, 1 - input.cell.1, 1) ∧
    fragmentMain (vertexMain s p c) = fragmentMain (vertexMain t p c) ∧
    fragmentMain (vertexMain s p c) = (c.1, c.2, 1 - c.1, 1) ∧
    (vertexMain 0 p c).position = (0, 0, 0, 1) ∧
    (vertexMain 1 p c).position = (p.1, p.2, 0, 1) := by
  refine ⟨rfl, rfl, rfl, ?_, ?_⟩
  · simp [vertexMain]
  · simp [vertexMain]

/-- Claim C9: the render pass never modifies either cell-state buffer or the
grid-dimensions uniform: no bind-group-layout entry visible to a
render-pipeline stage is writable storage, the writable slot 2 is visible to
the compute stage only, and every render-stage-visible entry is uniform or
read-only storage. -/
theorem render_pass_read_only :
    renderStageWritableEntries = [] ∧
    (bindGroupLayout.filter (fun e => e.binding == 2)).all
      (fun e => e.visibility == [Stage.compute]) = true ∧
    (bindGroupLayout.filter (fun e =>
      e.visibility.contains Stage.vertex ||
        e.visibility.contains Stage.fragment)).all
      (fun e => e.btype == BufferBindingType.uniform ||
        e.btype == BufferBindingType.readOnlyStorage) = true := by
  exact ⟨rfl, rfl, rfl⟩

/-- Claim C10: on every tick, regardless of cell-state buffer contents, the
single draw call issues exactly `vertices.length / 2 = 6` vertices and
`GRID_SIZE * GRID_SIZE = 65536` instances; dead cells are never suppressed by
reducing the instance count. -/
theorem draw_call_constant (n : Nat) :
    drawCalls n = [(vertices.length / 2, GRID_SIZE * GRID_SIZE)] ∧
    drawCalls n = [(6, 65536)] ∧
    vertices.length = 12 := by
  exact ⟨rfl, rfl, rfl⟩

end WebgpuStudy
